import Mathlib

/-!
Shallow embedding of `ignition-layout-studio/backend/sandbox/setup.py`.

The file defines three helpers:
  * `create_ignition_component` — builds a component descriptor dictionary;
  * `save_plot_as_base64` — serializes the active matplotlib figure and
    closes it;
  * `analyze_industrial_data` — normalizes the input into a DataFrame,
    computes `describe()` statistics, and emits rule-based suggestions
    and components for numeric columns.

Python dictionaries of heterogeneous values are embedded as a JSON-like
inductive `JVal`; scalar cell values of the tabular input as `PyValue`
(number, string, or NaN for a missing cell).  The pandas and matplotlib
layers the script calls into are modelled by executable Lean functions
mirroring their documented semantics (`describe`, DataFrame construction,
the pyplot current-figure state machine).
-/

/-- A scalar cell value of the tabular input: a number (embedded as `Rat`;
the script's examples use ints and floats), a string, or NaN standing for
a cell that is missing after DataFrame normalization. -/
inductive PyValue where
  | num (q : Rat)
  | str (s : String)
  | nan
deriving DecidableEq, Repr

/-- JSON-like values: the shape of the nested dictionaries the script
builds (`position`, `size`, `props`, …). -/
inductive JVal where
  | str (s : String)
  | num (q : Rat)
  | bool (b : Bool)
  | obj (fields : List (String × JVal))

/-- The `meta` sub-dictionary of a component descriptor. -/
structure ComponentMeta where
  name : JVal
  generated : Bool
  timestamp : String

/-- A component descriptor as returned by `create_ignition_component`. -/
structure Component where
  type : String
  position : JVal
  size : JVal
  props : JVal
  meta : ComponentMeta

/-- Python's `d.get(k, default)` on an association-list dictionary. -/
def pyGet (d : List (String × JVal)) (k : String) (dflt : JVal) : JVal :=
  match d.lookup k with
  | some v => v
  | none => dflt

/-- `create_ignition_component(component_type, properties=None)`:
builds the descriptor dictionary, reading `position`, `size`, `props`
and `name` from `properties` with the literal defaults of the source.
The wall-clock read `pd.Timestamp.now().isoformat()` is passed in as the
explicit argument `now`. -/
def create_ignition_component (component_type : String)
    (properties : Option (List (String × JVal))) (now : String) : Component :=
  let properties := properties.getD []
  { type := "perspective." ++ component_type
    position := pyGet properties "position" (.obj [("x", .num 0), ("y", .num 0)])
    size := pyGet properties "size" (.obj [("width", .num 100), ("height", .num 50)])
    props := pyGet properties "props" (.obj [])
    meta := { name := pyGet properties "name" (.str (component_type ++ "_component"))
              generated := true
              timestamp := now } }

/-- `pat.isPrefixOf s` on character lists, written out explicitly. -/
def listIsPfx : List Char → List Char → Bool
  | [], _ => true
  | _ :: _, [] => false
  | a :: as, b :: bs => a == b && listIsPfx as bs

/-- Substring containment on character lists: some suffix of `s` starts
with `pat`. -/
def listContainsSub (pat : List Char) : List Char → Bool
  | [] => pat.isEmpty
  | c :: rest => listIsPfx pat (c :: rest) || listContainsSub pat rest

/-- Python's `pat in s` on strings. -/
def strContains (s pat : String) : Bool :=
  listContainsSub pat.data s.data

/-- ASCII lowering of one character (`str.lower()` restricted to the
ASCII range; every column name the script's rules inspect is ASCII). -/
def lowerChar (c : Char) : Char :=
  if 'A' ≤ c ∧ c ≤ 'Z' then Char.ofNat (c.toNat + 32) else c

/-- Python's `s.lower()`. -/
def lowerStr (s : String) : String :=
  ⟨s.data.map lowerChar⟩

/-- A DataFrame column: its name paired with its cells, one per row. -/
abbrev DataFrame := List (String × List PyValue)

/-- The analyzer's input: a single dict (one-row table) or a list of
dicts (multi-row table).  Other input types make the Python function
fall through to `pd.DataFrame` semantics only via `describe`; the claims
only exercise these two shapes. -/
inductive AnalyzeInput where
  | dict (row : List (String × PyValue))
  | list (rows : List (List (String × PyValue)))

/-- Column names of `pd.DataFrame(rows)`: union of the rows' keys in
order of first appearance. -/
def unionCols (rows : List (List (String × PyValue))) : List String :=
  rows.foldl (fun acc row =>
    row.foldl (fun a kv => if a.contains kv.1 then a else a ++ [kv.1]) acc) []

/-- Normalization of the input into a DataFrame:
`pd.DataFrame([data])` for a dict, `pd.DataFrame(data)` for a list of
dicts (a key missing from a row becomes NaN in that row). -/
def toDF : AnalyzeInput → DataFrame
  | .dict row => row.map (fun kv => (kv.1, [kv.2]))
  | .list rows =>
      (unionCols rows).map (fun k =>
        (k, rows.map (fun row => (row.lookup k).getD .nan)))

/-- A column is numeric (dtype float/int) when every cell is a number or
NaN; any string cell makes the column dtype `object`. -/
def isNumericCol (vs : List PyValue) : Bool :=
  vs.all fun v =>
    match v with
    | .num _ => true
    | .nan => true
    | .str _ => false

/-- The numeric cells of a column (NaN dropped, as pandas statistics do). -/
def numCells (vs : List PyValue) : List Rat :=
  vs.filterMap fun v =>
    match v with
    | .num q => some q
    | _ => none

/-- Insertion into a sorted list of rationals. -/
def insertSorted (x : Rat) : List Rat → List Rat
  | [] => [x]
  | y :: ys => if x ≤ y then x :: y :: ys else y :: insertSorted x ys

/-- Insertion sort on rationals. -/
def sortRats : List Rat → List Rat
  | [] => []
  | x :: xs => insertSorted x (sortRats xs)

/-- Linear-interpolation quantile as pandas computes it: index
`p * (n - 1)` into the sorted cells, interpolating between neighbours. -/
def quantileAt (sorted : List Rat) (p : Rat) : Rat :=
  let n := sorted.length
  if n = 0 then 0
  else
    let h : Rat := p * ((n : Rat) - 1)
    let i : Nat := h.floor.toNat
    let lo := sorted.getD i 0
    let hi := sorted.getD (i + 1) lo
    lo + (h - (i : Rat)) * (hi - lo)

/-- The numeric `describe()` row for one column: count, mean, sample
variance (pandas reports its square root `std`, which is irrational in
general; the variance determines it), min, the three quartiles, max.
Mean and variance of an empty column are NaN in pandas; here division by
zero yields 0 (no claim touches that case). -/
structure NumStats where
  count : Nat
  mean : Rat
  varS : Rat
  minV : Rat
  q25 : Rat
  q50 : Rat
  q75 : Rat
  maxV : Rat
deriving DecidableEq, Repr

/-- The `describe()` row for an `object`-dtype column: count of non-null
cells and number of distinct values (pandas also reports `top`/`freq`;
no claim touches them). -/
structure ObjStats where
  count : Nat
  unique : Nat
deriving DecidableEq, Repr

/-- One column's entry in the `describe().to_dict()` mapping. -/
inductive ColSummary where
  | numeric (s : NumStats)
  | object (o : ObjStats)
deriving DecidableEq, Repr

/-- Numeric descriptive statistics of a column. -/
def numStats (vs : List PyValue) : NumStats :=
  let cells := numCells vs
  let n := cells.length
  let mean : Rat := cells.sum / (n : Rat)
  let varS : Rat := (cells.map (fun x => (x - mean) * (x - mean))).sum / ((n : Rat) - 1)
  let sorted := sortRats cells
  { count := n
    mean := mean
    varS := varS
    minV := sorted.headD 0
    q25 := quantileAt sorted (1/4)
    q50 := quantileAt sorted (1/2)
    q75 := quantileAt sorted (3/4)
    maxV := sorted.getLastD 0 }

/-- Object-dtype descriptive statistics of a column. -/
def objStats (vs : List PyValue) : ObjStats :=
  let nonNull := vs.filter fun v =>
    match v with
    | .nan => false
    | _ => true
  { count := nonNull.length
    unique := (nonNull.foldl (fun acc v => if acc.contains v then acc else acc ++ [v]) []).length }

/-- `DataFrame.describe().to_dict()`: with at least one numeric column it
summarizes exactly the numeric columns; with none it falls back to
object statistics over all columns. -/
def describeDF (df : DataFrame) : List (String × ColSummary) :=
  let numeric := df.filter fun c => isNumericCol c.2
  if numeric.isEmpty then
    df.map fun c => (c.1, .object (objStats c.2))
  else
    numeric.map fun c => (c.1, .numeric (numStats c.2))

/-- The suggestion string the temperature rule appends for column `col`. -/
def tempSuggestion (col : String) : String :=
  "Temperature monitoring component for " ++ col

/-- The component the temperature rule appends for column `col`. -/
def tempComponent (col : String) (now : String) : Component :=
  create_ignition_component "display"
    (some [("name", .str (col ++ "_display")),
           ("props", .obj [("text", .str ("\x7b[default]Equipment/" ++ col ++ "/value\x7d")),
                           ("style", .obj [("color", .str "blue")])])]) now

/-- The suggestion string the pressure rule appends for column `col`. -/
def pressureSuggestion (col : String) : String :=
  "Pressure gauge component for " ++ col

/-- The component the pressure rule appends for column `col`. -/
def pressureComponent (col : String) (now : String) : Component :=
  create_ignition_component "gauge"
    (some [("name", .str (col ++ "_gauge")),
           ("props", .obj [("value", .str ("\x7b[default]Equipment/" ++ col ++ "/value\x7d")),
                           ("min", .num 0),
                           ("max", .num 100)])]) now

/-- The `for col in numeric_cols` loop of `analyze_industrial_data`:
`if 'temp' in col.lower(): … elif 'pressure' in col.lower(): …`,
appending a suggestion and a component in each taken branch. -/
def suggestLoop (now : String) : List String → List String × List Component
  | [] => ([], [])
  | col :: rest =>
      let (ss, cs) := suggestLoop now rest
      if strContains (lowerStr col) "temp" then
        (tempSuggestion col :: ss, tempComponent col now :: cs)
      else if strContains (lowerStr col) "pressure" then
        (pressureSuggestion col :: ss, pressureComponent col now :: cs)
      else
        (ss, cs)

/-- The process-wide pyplot state `save_plot_as_base64` operates on: the
currently active figure, if any.  A figure is modelled as the list of its
drawn elements; `[]` is the blank canvas. -/
structure MplState where
  current : Option (List String)

/-- `plt.gcf()` as `plt.savefig` invokes it: return the active figure,
creating a fresh empty one when none is active (matplotlib auto-creates,
so saving with nothing drawn succeeds yielding a blank canvas). -/
def gcf (s : MplState) : List String × MplState :=
  match s.current with
  | some fig => (fig, s)
  | none => ([], { current := some [] })

/-- Rasterizing a figure to PNG and base64-encoding the bytes, modelled
as a serialization of the figure's drawn elements; the empty figure
yields the encoding of the blank canvas. -/
def pngOf (fig : List String) : String :=
  String.intercalate ";" fig

/-- `plt.close()`: release the currently active figure. -/
def closeFig (_s : MplState) : MplState :=
  { current := none }

/-- `save_plot_as_base64()`: render the active figure (`plt.savefig` into
an in-memory buffer), base64-encode it, close the figure (`plt.close()`),
and return the `data:image/png;base64,` URI.  Explicit state passing
stands for the process-wide pyplot state. -/
def save_plot_as_base64 (s : MplState) : String × MplState :=
  let (fig, s1) := gcf s
  let payload := pngOf fig
  let s2 := closeFig s1
  ("data:image/png;base64," ++ payload, s2)

/-- The analysis result dictionary. -/
structure Analysis where
  summary : List (String × ColSummary)
  suggestions : List String
  components : List Component

/-- `analyze_industrial_data(data)`: normalize to a DataFrame, take
`describe().to_dict()` as the summary, and run the suggestion loop over
`data.select_dtypes(include=[np.number]).columns`. -/
def analyze_industrial_data (data : AnalyzeInput) (now : String) : Analysis :=
  let df := toDF data
  let numericCols := (df.filter fun c => isNumericCol c.2).map Prod.fst
  let (ss, cs) := suggestLoop now numericCols
  { summary := describeDF df
    suggestions := ss
    components := cs }

/-- The relation "suggestion `s` and component `c` were appended by the
analyzer as the pair built for one and the same column". -/
def pairedSuggestion (now : String) (s : String) (c : Component) : Prop :=
  ∃ col, (s = tempSuggestion col ∧ c = tempComponent col now) ∨
         (s = pressureSuggestion col ∧ c = pressureComponent col now)

lemma suggestLoop_pairs (now : String) (cols : List String) :
    (suggestLoop now cols).1.length = (suggestLoop now cols).2.length ∧
    ∀ p ∈ (suggestLoop now cols).1.zip (suggestLoop now cols).2,
      pairedSuggestion now p.1 p.2 := by
  induction cols with
  | nil =>
      refine ⟨rfl, ?_⟩
      intro p hp
      simp [suggestLoop] at hp
  | cons col rest ih =>
      rcases hrec : suggestLoop now rest with ⟨ss, cs⟩
      rw [hrec] at ih
      by_cases ht : strContains (lowerStr col) "temp" = true
      · simp only [suggestLoop, hrec, ht, if_true]
        refine ⟨by simpa using ih.1, ?_⟩
        intro p hp
        rcases List.mem_cons.mp (by simpa using hp) with h | h
        · exact ⟨col, Or.inl ⟨by rw [h], by rw [h]⟩⟩
        · exact ih.2 p h
      · by_cases hp' : strContains (lowerStr col) "pressure" = true
        · simp only [suggestLoop, hrec, ht, hp', if_false, if_true, Bool.false_eq_true]
          refine ⟨by simpa using ih.1, ?_⟩
          intro p hp
          rcases List.mem_cons.mp (by simpa using hp) with h | h
          · exact ⟨col, Or.inr ⟨by rw [h], by rw [h]⟩⟩
          · exact ih.2 p h
        · simp only [suggestLoop, hrec, ht, hp', if_false, Bool.false_eq_true]
          simpa using ih

lemma filter_ne_nil_of_any {α : Type} (l : List α) (p : α → Bool) (h : l.any p = true) :
    l.filter p ≠ [] := by
  rcases List.any_eq_true.mp h with ⟨x, hx, hpx⟩
  intro hnil
  exact (List.filter_eq_nil_iff.mp hnil x hx) hpx

/-- Claim C1, counterexample: on `analyze({"temp_pressure": 5})` the
analyzer does NOT produce two suggestions and two components — the
pressure branch is an `elif`, so only the temperature rule fires. -/
theorem analyze_temp_pressure_not_two :
    ¬ ((analyze_industrial_data (.dict [("temp_pressure", .num 5)]) "t").suggestions.length = 2 ∧
       (analyze_industrial_data (.dict [("temp_pressure", .num 5)]) "t").components.length = 2) := by
  decide

/-- Claim C1, amended: for a numeric column whose lowered name contains
both "temp" and "pressure", only the temperature rule fires (the
pressure rule is in an `elif`), yielding exactly one suggestion and one
display component. -/
theorem analyze_both_substrings_single_pair (col : String) (q : Rat) (now : String)
    (ht : strContains (lowerStr col) "temp" = true)
    (_hp : strContains (lowerStr col) "pressure" = true) :
    (analyze_industrial_data (.dict [(col, .num q)]) now).suggestions = [tempSuggestion col] ∧
    (analyze_industrial_data (.dict [(col, .num q)]) now).components = [tempComponent col now] := by
  constructor <;> simp [analyze_industrial_data, toDF, isNumericCol, suggestLoop, ht]

/-- Claim C1, witness at the column "temp_pressure". -/
theorem analyze_both_substrings_single_pair_witness :
    (analyze_industrial_data (.dict [("temp_pressure", .num 5)]) "t").suggestions =
      [tempSuggestion "temp_pressure"] :=
  (analyze_both_substrings_single_pair "temp_pressure" 5 "t" (by decide) (by decide)).1

/-- Claim C2: a numeric column whose lowered name contains "temp" yields
exactly one suggestion and one component: a display named
`<col>_display` whose `props.text` is the tag-binding string with a blue
text style. -/
theorem analyze_temp_column_display (col : String) (q : Rat) (now : String)
    (h : strContains (lowerStr col) "temp" = true) :
    (analyze_industrial_data (.dict [(col, .num q)]) now).suggestions = [tempSuggestion col] ∧
    (analyze_industrial_data (.dict [(col, .num q)]) now).components = [tempComponent col now] ∧
    (tempComponent col now).type = "perspective.display" ∧
    (tempComponent col now).meta.name = .str (col ++ "_display") ∧
    (tempComponent col now).props =
      .obj [("text", .str ("\x7b[default]Equipment/" ++ col ++ "/value\x7d")),
            ("style", .obj [("color", .str "blue")])] := by
  refine ⟨?_, ?_, rfl, rfl, rfl⟩ <;>
    simp [analyze_industrial_data, toDF, isNumericCol, suggestLoop, h]

/-- Claim C2, witness at the column "temp_1". -/
theorem analyze_temp_column_display_witness :
    (analyze_industrial_data (.dict [("temp_1", .num 50)]) "t").suggestions =
      [tempSuggestion "temp_1"] :=
  (analyze_temp_column_display "temp_1" 50 "t" (by decide)).1

/-- Claim C3: a numeric column whose lowered name contains "pressure"
but not "temp" yields exactly one suggestion and one component: a gauge
named `<col>_gauge` whose props carry the tag-binding string and the
fixed bounds min 0, max 100. -/
theorem analyze_pressure_column_gauge (col : String) (q : Rat) (now : String)
    (hp : strContains (lowerStr col) "pressure" = true)
    (ht : strContains (lowerStr col) "temp" = false) :
    (analyze_industrial_data (.dict [(col, .num q)]) now).suggestions = [pressureSuggestion col] ∧
    (analyze_industrial_data (.dict [(col, .num q)]) now).components = [pressureComponent col now] ∧
    (pressureComponent col now).type = "perspective.gauge" ∧
    (pressureComponent col now).meta.name = .str (col ++ "_gauge") ∧
    (pressureComponent col now).props =
      .obj [("value", .str ("\x7b[default]Equipment/" ++ col ++ "/value\x7d")),
            ("min", .num 0), ("max", .num 100)] := by
  refine ⟨?_, ?_, rfl, rfl, rfl⟩ <;>
    simp [analyze_industrial_data, toDF, isNumericCol, suggestLoop, hp, ht]

/-- Claim C3, witness at the column "pressure_a". -/
theorem analyze_pressure_column_gauge_witness :
    (analyze_industrial_data (.dict [("pressure_a", .num 10)]) "t").suggestions =
      [pressureSuggestion "pressure_a"] :=
  (analyze_pressure_column_gauge "pressure_a" 10 "t" (by decide) (by decide)).1

/-- Claim C4, counterexample: on `analyze({"name": "pump"})` every
column is non-numeric, so `describe()` falls back to object statistics
and the non-numeric column "name" appears in the summary — it is not
excluded as the claim states. -/
theorem analyze_object_column_in_summary :
    isNumericCol [PyValue.str "pump"] = false ∧
    (analyze_industrial_data (.dict [("name", .str "pump")]) "t").summary =
      [("name", .object { count := 1, unique := 1 })] := by
  decide

/-- Claim C4, amended: when at least one column is numeric, the summary
covers exactly the numeric columns; when no column is numeric,
`describe()` falls back to object statistics and every column appears. -/
theorem analyze_summary_columns (data : AnalyzeInput) (now : String) :
    ((toDF data).any (fun c => isNumericCol c.2) = true →
      (analyze_industrial_data data now).summary.map Prod.fst =
        ((toDF data).filter fun c => isNumericCol c.2).map Prod.fst) ∧
    ((toDF data).any (fun c => isNumericCol c.2) = false →
      (analyze_industrial_data data now).summary.map Prod.fst = (toDF data).map Prod.fst) := by
  constructor
  · intro h
    have hne := filter_ne_nil_of_any (toDF data) (fun c => isNumericCol c.2) h
    rcases hn : (toDF data).filter (fun c => isNumericCol c.2) with _ | ⟨c, rest⟩
    · exact absurd hn hne
    · simp [analyze_industrial_data, describeDF, hn]
  · intro h
    have hall : ∀ c ∈ toDF data, ¬ isNumericCol c.2 = true := by
      simpa using List.any_eq_false.mp h
    have hn : (toDF data).filter (fun c => isNumericCol c.2) = [] :=
      List.filter_eq_nil_iff.mpr hall
    simp [analyze_industrial_data, describeDF, hn]

/-- Claim C4, witness on a one-column numeric input. -/
theorem analyze_summary_columns_witness :
    (analyze_industrial_data (.dict [("temp", .num 1)]) "t").summary.map Prod.fst =
      ((toDF (.dict [("temp", .num 1)])).filter fun c => isNumericCol c.2).map Prod.fst :=
  (analyze_summary_columns (.dict [("temp", .num 1)]) "t").1 (by decide)

/-- Claim C5: for every kind and property bag, the component's `type` is
`"perspective."` followed verbatim by the kind (no validation against
any enumeration), and `meta.generated` is true. -/
theorem create_component_type_generated (kind : String)
    (properties : Option (List (String × JVal))) (now : String) :
    (create_ignition_component kind properties now).type = "perspective." ++ kind ∧
    (create_ignition_component kind properties now).meta.generated = true :=
  ⟨rfl, rfl⟩

/-- Claim C6: when the property bag is absent or lacks a key, the
builder falls back to position `x 0, y 0`, size `width 100, height 50`,
empty props, and meta name `<kind>_component`. -/
theorem create_component_defaults (kind : String) (now : String)
    (properties : Option (List (String × JVal)))
    (hpos : (properties.getD []).lookup "position" = none)
    (hsize : (properties.getD []).lookup "size" = none)
    (hprops : (properties.getD []).lookup "props" = none)
    (hname : (properties.getD []).lookup "name" = none) :
    (create_ignition_component kind properties now).position = .obj [("x", .num 0), ("y", .num 0)] ∧
    (create_ignition_component kind properties now).size = .obj [("width", .num 100), ("height", .num 50)] ∧
    (create_ignition_component kind properties now).props = .obj [] ∧
    (create_ignition_component kind properties now).meta.name = .str (kind ++ "_component") := by
  refine ⟨?_, ?_, ?_, ?_⟩ <;>
    simp [create_ignition_component, pyGet, hpos, hsize, hprops, hname]

/-- Claim C6, witness with the property bag absent. -/
theorem create_component_defaults_witness :
    (create_ignition_component "gauge" none "ts").position = .obj [("x", .num 0), ("y", .num 0)] :=
  (create_component_defaults "gauge" "ts" none rfl rfl rfl rfl).1

/-- Claim C7: on `analyze([{"temp": 1}, {"temp": 2}])` the summary entry
for column "temp" reports count 2 and mean 3/2 (together with the other
descriptive statistics of the two cells). -/
theorem analyze_two_rows_temp_summary :
    (analyze_industrial_data (.list [[("temp", .num 1)], [("temp", .num 2)]]) "t").summary.lookup "temp" =
      some (.numeric { count := 2, mean := 3/2, varS := 1/2, minV := 1,
                       q25 := 5/4, q50 := 3/2, q75 := 7/4, maxV := 2 }) := by
  with_unfolding_all rfl

/-- Claim C8: a numeric column whose lowered name contains neither
"temp" nor "pressure" produces no suggestion and no component. -/
theorem analyze_unmatched_column_empty (col : String) (q : Rat) (now : String)
    (ht : strContains (lowerStr col) "temp" = false)
    (hp : strContains (lowerStr col) "pressure" = false) :
    (analyze_industrial_data (.dict [(col, .num q)]) now).suggestions = [] ∧
    (analyze_industrial_data (.dict [(col, .num q)]) now).components = [] := by
  constructor <;> simp [analyze_industrial_data, toDF, isNumericCol, suggestLoop, ht, hp]

/-- Claim C8, witness at the column "flow_rate". -/
theorem analyze_unmatched_column_empty_witness :
    (analyze_industrial_data (.dict [("flow_rate", .num 5)]) "t").suggestions = [] :=
  (analyze_unmatched_column_empty "flow_rate" 5 "t" (by decide) (by decide)).1

/-- Claim C9: every export closes the active figure, and a second export
without an intervening draw still succeeds (total in the model, as
matplotlib auto-creates a figure) and returns the data-URI encoding of
the empty canvas — the exporter consumes the plotting state. -/
theorem save_plot_closes_figure (s : MplState) :
    (save_plot_as_base64 s).2 = { current := none } ∧
    (save_plot_as_base64 (save_plot_as_base64 s).2).1 = "data:image/png;base64," ++ pngOf [] := by
  obtain ⟨cur⟩ := s
  cases cur <;> exact ⟨rfl, rfl⟩

/-- Claim C10: the analyzer's suggestions and components lists always
have equal length, and the pair at each index was appended together for
one and the same column. -/
theorem analyze_suggestions_components_paired (data : AnalyzeInput) (now : String) :
    (analyze_industrial_data data now).suggestions.length =
      (analyze_industrial_data data now).components.length ∧
    ∀ p ∈ (analyze_industrial_data data now).suggestions.zip
            (analyze_industrial_data data now).components,
      pairedSuggestion now p.1 p.2 := by
  have h := suggestLoop_pairs now
    (((toDF data).filter fun c => isNumericCol c.2).map Prod.fst)
  rcases hrec : suggestLoop now (((toDF data).filter fun c => isNumericCol c.2).map Prod.fst)
    with ⟨ss, cs⟩
  rw [hrec] at h
  simpa [analyze_industrial_data, hrec] using h

/-- Claim C10, witness on a one-column temperature input. -/
theorem analyze_suggestions_components_paired_witness :
    pairedSuggestion "ts" (tempSuggestion "temp_1") (tempComponent "temp_1" "ts") :=
  (analyze_suggestions_components_paired (.dict [("temp_1", .num 50)]) "ts").2
    (tempSuggestion "temp_1", tempComponent "temp_1" "ts") (List.Mem.head _)
